import Mathlib

/-!
Verification of the native Deflater adapter
(`luni/src/main/native/java_util_zip_Deflater.cpp`).

The adapter wraps a zlib deflate stream. We shallowly embed the adapter
functions; the zlib engine calls (`deflate`, `deflateInit2`, `deflateReset`,
`deflateParams`) live in an external library and are taken as abstract
function parameters over the embedded stream state. Pointers are modelled as
integer addresses (`NULL` is address 0); JNI exceptions are modelled by an
explicit `Thrown` value in each operation's result.
-/

namespace Deflater

/-- zlib status code `Z_OK`. -/
def zOK : Int := 0

/-- zlib status code `Z_STREAM_END`. -/
def zStreamEnd : Int := 1

/-- zlib status code `Z_BUF_ERROR`. -/
def zBufError : Int := -5

/-- zlib compression method `Z_DEFLATED`. -/
def zDeflated : Int := 8

/-- zlib `DEF_WBITS` (default window bits). -/
def defWBits : Int := 15

/-- zlib `DEF_MEM_LEVEL` (default memory level). -/
def defMemLevel : Int := 8

/-- The zlib `z_stream` fields the adapter reads or writes. Pointer-valued
fields (`next_in`, `next_out`) are integer addresses; `NULL` is 0. -/
structure ZStream where
  next_in : Int
  avail_in : Int
  next_out : Int
  avail_out : Int
  total_in : Int
  total_out : Int
  adler : Int
deriving Repr, DecidableEq

/-- The two fields of the caller-visible `java.util.zip.Deflater` object the
adapter writes through JNI: the `finished` flag and the cumulative `inRead`
("bytes consumed from input") counter. -/
structure DeflaterObj where
  finished : Bool
  inRead : Int
deriving Repr, DecidableEq

/-- A JNI exception raised by the adapter, carrying the zlib status code used
to build the diagnostic message where applicable. -/
inductive Thrown where
  | outOfMemory : Thrown
  | illegalArgument (err : Int) : Thrown
  | illegalState (err : Int) : Thrown
  | dataFormat (err : Int) : Thrown
deriving Repr, DecidableEq

/-- Whether a thrown condition is the InvalidState kind
(`java/lang/IllegalStateException`). -/
def Thrown.isInvalidState : Thrown → Bool
  | .illegalState _ => true
  | _ => false

/-- One step of the zlib engine: `deflate(&stream, flushStyle)`, returning
the updated stream and the status code. Abstract: zlib is external. -/
abbrev Engine := ZStream → Int → ZStream × Int

/-- Signature of `deflateInit2` as seen by the adapter: given level, method, windowBits,
memLevel, strategy, the status code. Abstract: zlib is external. -/
abbrev InitFn := Int → Int → Int → Int → Int → Int

/-- Result of `Deflater_deflateImpl`: the stream state, the caller-visible
object, the exception raised (if any) and the `jint` return value. -/
structure DeflateResult where
  stream : ZStream
  recv : DeflaterObj
  thrown : Option Thrown
  ret : Int
deriving Repr, DecidableEq

/-- Embedding of `Deflater_deflateImpl`. `pin` is the result of pinning the output byte
array (`ScopedByteArrayRW`): `none` when the helper yields no memory, else
the base address of the pinned buffer. -/
def deflateImpl (engine : Engine) (recv : DeflaterObj) (pin : Option Int)
    (off len : Int) (stream : ZStream) (flushStyle : Int) : DeflateResult :=
  match pin with
  | none => ⟨stream, recv, none, -1⟩
  | some out =>
    let s0 : ZStream := { stream with next_out := out + off, avail_out := len }
    let initialNextIn := s0.next_in
    let initialNextOut := s0.next_out
    let (s1, err) := engine s0 flushStyle
    if err = zOK ∨ err = zStreamEnd ∨ err = zBufError then
      let recv1 := if err = zStreamEnd then { recv with finished := true } else recv
      let bytesRead := s1.next_in - initialNextIn
      let bytesWritten := s1.next_out - initialNextOut
      ⟨s1, { recv1 with inRead := recv1.inRead + bytesRead }, none, bytesWritten⟩
    else
      ⟨s1, recv, some (.dataFormat err), -1⟩

/-- Result of `Deflater_createStream`: exception raised (if any), the `jlong`
return value, and whether the freshly allocated context was released again
before returning (the `UniquePtr` destructor on the error path). -/
structure CreateResult where
  thrown : Option Thrown
  ret : Int
  contextReleased : Bool
deriving Repr, DecidableEq

/-- Source line `int windowBits = noHeader ? -DEF_WBITS : DEF_WBITS;`. -/
def windowBitsFor (noHeader : Bool) : Int :=
  if noHeader then -defWBits else defWBits

/-- Value of `reinterpret_cast<uintptr_t>` of an allocation address, then the implicit
conversion to `jlong` (two's complement at 64 bits). -/
def toJlong (a : Nat) : Int :=
  if a % 2 ^ 64 < 2 ^ 63 then ((a % 2 ^ 64 : Nat) : Int)
  else ((a % 2 ^ 64 : Nat) : Int) - 2 ^ 64

/-- Embedding of `Deflater_createStream`. `alloc` is the outcome of `new NativeZipStream`:
`none` for allocation failure, `some addr` for the fresh context's address.
`init` is zlib's `deflateInit2` applied to
(level, method, windowBits, memLevel, strategy). -/
def createStream (alloc : Option Nat) (init : InitFn)
    (level strategy : Int) (noHeader : Bool) : CreateResult :=
  match alloc with
  | none => ⟨some .outOfMemory, -1, false⟩
  | some addr =>
    let windowBits := windowBitsFor noHeader
    let memLevel := defMemLevel
    let err := init level zDeflated windowBits memLevel strategy
    if err ≠ zOK then ⟨some (.illegalArgument err), -1, true⟩
    else ⟨none, toJlong addr, false⟩

/-- Embedding of `Deflater_resetImpl`. `dr` is zlib's `deflateReset`; the `jobject`
parameter of the JNI function is unnamed and unused, carried here as `recv`
and returned untouched. -/
def resetImpl (dr : ZStream → ZStream × Int) (recv : DeflaterObj)
    (stream : ZStream) : ZStream × DeflaterObj × Option Thrown :=
  let (s1, err) := dr stream
  if err ≠ zOK then (s1, recv, some (.illegalArgument err))
  else (s1, recv, none)

/-- Embedding of `Deflater_setLevelsImpl`. `dp` is zlib's `deflateParams` applied to
(stream, level, strategy). The adapter nulls the output binding before the
engine call. -/
def setLevelsImpl (dp : ZStream → Int → Int → ZStream × Int)
    (level strategy : Int) (stream : ZStream) : ZStream × Option Thrown :=
  let s0 : ZStream := { stream with next_out := 0, avail_out := 0 }
  let (s1, err) := dp s0 level strategy
  if err ≠ zOK then (s1, some (.illegalState err))
  else (s1, none)

/-- A concrete stream state used to instantiate the theorems' hypotheses. -/
def demoStream : ZStream := ⟨1000, 11, 0, 0, 0, 0, 1⟩

/-- A concrete engine step that consumes 5 input bytes and produces 3 output
bytes, reporting `Z_OK`. -/
def demoEngineOK : Engine := fun s _ =>
  ({ s with next_in := s.next_in + 5, avail_in := s.avail_in - 5,
            next_out := s.next_out + 3, avail_out := s.avail_out - 3,
            total_in := s.total_in + 5, total_out := s.total_out + 3 }, zOK)

/-- A concrete engine step that consumes 2 input bytes and then fails with
`Z_DATA_ERROR` (-3). -/
def demoEngineFatal : Engine := fun s _ =>
  ({ s with next_in := s.next_in + 2, avail_in := s.avail_in - 2 }, -3)

/-- A concrete engine step that makes no progress and reports `Z_BUF_ERROR`. -/
def demoEngineStuck : Engine := fun s _ => (s, zBufError)

end Deflater

namespace Deflater

/-- C1: `Deflater_deflateImpl` maps the engine status to exactly three
non-fatal outcomes and one fatal outcome: on `Z_OK` it returns the bytes
produced with no flag change; on `Z_STREAM_END` it sets the caller-visible
`finished` flag and returns the bytes produced; on `Z_BUF_ERROR` it is
non-fatal and returns the bytes produced; on any other status it raises a
`DataFormatException` carrying the engine's status and returns -1. -/
theorem deflate_outcome_mapping (engine : Engine) (recv : DeflaterObj)
    (out off len : Int) (stream : ZStream) (flush : Int) (s1 : ZStream)
    (err : Int)
    (heng : engine { stream with next_out := out + off, avail_out := len }
      flush = (s1, err)) :
    (err = zOK →
      deflateImpl engine recv (some out) off len stream flush =
        ⟨s1, { recv with inRead := recv.inRead + (s1.next_in - stream.next_in) },
          none, s1.next_out - (out + off)⟩) ∧
    (err = zStreamEnd →
      deflateImpl engine recv (some out) off len stream flush =
        ⟨s1, { finished := true,
               inRead := recv.inRead + (s1.next_in - stream.next_in) },
          none, s1.next_out - (out + off)⟩) ∧
    (err = zBufError →
      deflateImpl engine recv (some out) off len stream flush =
        ⟨s1, { recv with inRead := recv.inRead + (s1.next_in - stream.next_in) },
          none, s1.next_out - (out + off)⟩) ∧
    (err ≠ zOK → err ≠ zStreamEnd → err ≠ zBufError →
      deflateImpl engine recv (some out) off len stream flush =
        ⟨s1, recv, some (.dataFormat err), -1⟩) := by
  refine ⟨?_, ?_, ?_, ?_⟩
  · intro h
    simp [deflateImpl, heng, h, zOK, zStreamEnd]
  · intro h
    simp [deflateImpl, heng, h, zStreamEnd]
  · intro h
    simp [deflateImpl, heng, h, zOK, zStreamEnd, zBufError]
  · intro h0 h1 h2
    simp [deflateImpl, heng, h0, h1, h2]

/-- Witness for C1: the four cases instantiated at concrete engines. -/
theorem deflate_outcome_mapping_witness :
    deflateImpl demoEngineOK ⟨false, 7⟩ (some 100) 2 64 demoStream 0 =
      ⟨⟨1005, 6, 105, 61, 5, 3, 1⟩, ⟨false, 12⟩, none, 3⟩ ∧
    deflateImpl demoEngineFatal ⟨false, 7⟩ (some 100) 2 64 demoStream 0 =
      ⟨⟨1002, 9, 102, 64, 0, 0, 1⟩, ⟨false, 7⟩, some (.dataFormat (-3)), -1⟩ := by
  constructor
  · have h := deflate_outcome_mapping demoEngineOK ⟨false, 7⟩ 100 2 64
      demoStream 0 ⟨1005, 6, 105, 61, 5, 3, 1⟩ zOK (by decide)
    have := h.1 rfl
    rw [this]
    decide
  · have h := deflate_outcome_mapping demoEngineFatal ⟨false, 7⟩ 100 2 64
      demoStream 0 ⟨1002, 9, 102, 64, 0, 0, 1⟩ (-3) (by decide)
    have := h.2.2.2 (by decide) (by decide) (by decide)
    rw [this]

/-- C2: on every non-fatal call, `Deflater_deflateImpl` returns exactly the
output-cursor delta across the engine step, and adds exactly the input-cursor
delta to the caller-visible cumulative `inRead` counter. -/
theorem deflate_progress_accounting (engine : Engine) (recv : DeflaterObj)
    (out off len : Int) (stream : ZStream) (flush : Int) (s1 : ZStream)
    (err : Int)
    (heng : engine { stream with next_out := out + off, avail_out := len }
      flush = (s1, err))
    (hnf : err = zOK ∨ err = zStreamEnd ∨ err = zBufError) :
    (deflateImpl engine recv (some out) off len stream flush).ret =
      s1.next_out - (out + off) ∧
    (deflateImpl engine recv (some out) off len stream flush).recv.inRead =
      recv.inRead + (s1.next_in - stream.next_in) := by
  have hcases := deflate_outcome_mapping engine recv out off len stream flush
    s1 err heng
  rcases hnf with h | h | h
  · rw [hcases.1 h]; exact ⟨rfl, rfl⟩
  · rw [hcases.2.1 h]; exact ⟨rfl, rfl⟩
  · rw [hcases.2.2.1 h]; exact ⟨rfl, rfl⟩

/-- Witness for C2 at a concrete `Z_OK` engine step. -/
theorem deflate_progress_accounting_witness :
    (deflateImpl demoEngineOK ⟨false, 7⟩ (some 100) 2 64 demoStream 0).ret
      = 3 ∧
    (deflateImpl demoEngineOK ⟨false, 7⟩ (some 100) 2 64
      demoStream 0).recv.inRead = 12 := by
  have h := deflate_progress_accounting demoEngineOK ⟨false, 7⟩ 100 2 64
    demoStream 0 ⟨1005, 6, 105, 61, 5, 3, 1⟩ zOK (by decide) (Or.inl rfl)
  exact ⟨by rw [h.1]; decide, by rw [h.2]; decide⟩

/-- C8: a deflate call with a zero-length output region and non-empty pending
input, on which the engine reports `Z_BUF_ERROR` without producing output,
returns 0 bytes produced and raises no error. -/
theorem deflate_zero_output_no_progress (engine : Engine) (recv : DeflaterObj)
    (out off : Int) (stream : ZStream) (flush : Int) (s1 : ZStream)
    (_hin : 0 < stream.avail_in)
    (heng : engine { stream with next_out := out + off, avail_out := 0 }
      flush = (s1, zBufError))
    (hout : s1.next_out = out + off) :
    (deflateImpl engine recv (some out) off 0 stream flush).ret = 0 ∧
    (deflateImpl engine recv (some out) off 0 stream flush).thrown = none := by
  have h := (deflate_outcome_mapping engine recv out off 0 stream flush s1
    zBufError heng).2.2.1 rfl
  rw [h]
  simp [hout]

/-- Witness for C8: a stuck engine step on `demoStream` (11 pending input
bytes, zero-length output region). -/
theorem deflate_zero_output_no_progress_witness :
    (deflateImpl demoEngineStuck ⟨false, 7⟩ (some 100) 2 0 demoStream 0).ret
      = 0 ∧
    (deflateImpl demoEngineStuck ⟨false, 7⟩ (some 100) 2 0
      demoStream 0).thrown = none :=
  deflate_zero_output_no_progress demoEngineStuck ⟨false, 7⟩ 100 2 demoStream 0
    ⟨1000, 11, 102, 0, 0, 0, 1⟩ (by decide) (by decide) (by decide)

/-- C9: when the engine reports a fatal status (not `Z_OK`, `Z_STREAM_END`
or `Z_BUF_ERROR`), the call returns -1 and leaves the caller-visible object
— both the `inRead` counter and the `finished` flag — unchanged, even if the
engine moved the input cursor before failing. -/
theorem deflate_fatal_leaves_recv (engine : Engine) (recv : DeflaterObj)
    (out off len : Int) (stream : ZStream) (flush : Int) (s1 : ZStream)
    (err : Int)
    (heng : engine { stream with next_out := out + off, avail_out := len }
      flush = (s1, err))
    (h0 : err ≠ zOK) (h1 : err ≠ zStreamEnd) (h2 : err ≠ zBufError) :
    (deflateImpl engine recv (some out) off len stream flush).ret = -1 ∧
    (deflateImpl engine recv (some out) off len stream flush).recv = recv := by
  have h := (deflate_outcome_mapping engine recv out off len stream flush s1
    err heng).2.2.2 h0 h1 h2
  rw [h]
  exact ⟨rfl, rfl⟩

/-- Witness for C9: the fatal engine consumed 2 input bytes, yet `inRead`
and `finished` are untouched and -1 is returned. -/
theorem deflate_fatal_leaves_recv_witness :
    (deflateImpl demoEngineFatal ⟨false, 7⟩ (some 100) 2 64 demoStream 0).ret
      = -1 ∧
    (deflateImpl demoEngineFatal ⟨false, 7⟩ (some 100) 2 64
      demoStream 0).recv = ⟨false, 7⟩ :=
  deflate_fatal_leaves_recv demoEngineFatal ⟨false, 7⟩ 100 2 64 demoStream 0
    ⟨1002, 9, 102, 64, 0, 0, 1⟩ (-3) (by decide) (by decide) (by decide)
    (by decide)

/-- C10: when the output buffer cannot be pinned, `Deflater_deflateImpl`
returns -1 without invoking the engine: the stream state and the
caller-visible object are unchanged, and the result does not depend on the
engine at all. -/
theorem deflate_pin_failure (engine other : Engine) (recv : DeflaterObj)
    (off len : Int) (stream : ZStream) (flush : Int) :
    deflateImpl engine recv none off len stream flush =
      ⟨stream, recv, none, -1⟩ ∧
    deflateImpl engine recv none off len stream flush =
      deflateImpl other recv none off len stream flush :=
  ⟨rfl, rfl⟩

/-- A `deflateReset` that rejects the reset with `Z_STREAM_ERROR` (-2). -/
def demoFailReset : ZStream → ZStream × Int := fun s => (s, -2)

/-- An always-accepting `deflateInit2`. -/
def demoInitOK : InitFn := fun _ _ _ _ _ => zOK

/-- An always-rejecting `deflateInit2`, failing with `Z_STREAM_ERROR` (-2). -/
def demoInitFail : InitFn := fun _ _ _ _ _ => -2

/-- A `deflateInit2` that accepts exactly the default parameters the adapter
is expected to pass for raw mode: method 8, windowBits -15, memLevel 8. -/
def demoInitProbe : InitFn := fun _ m w mem _ =>
  if m = 8 ∧ w = -15 ∧ mem = 8 then zOK else -2

/-- An always-accepting `deflateParams`. -/
def demoParamsOK : ZStream → Int → Int → ZStream × Int := fun s _ _ => (s, zOK)

/-- A `deflateParams` rejecting the change with `Z_STREAM_ERROR` (-2). -/
def demoParamsFail : ZStream → Int → Int → ZStream × Int :=
  fun s _ _ => (s, -2)

/-- A `deflateParams` that accepts exactly when the output binding has been
cleared to a null cursor and zero remaining count. -/
def demoParamsProbe : ZStream → Int → Int → ZStream × Int := fun s _ _ =>
  if s.next_out = 0 ∧ s.avail_out = 0 then (s, zOK) else (s, -2)

/-- C3 counterexample: on a concrete rejected reset, `Deflater_resetImpl`
raises `IllegalArgumentException` (the InvalidArgument kind), not the
InvalidState kind the claim states. -/
theorem reset_reject_not_invalid_state :
    (resetImpl demoFailReset ⟨false, 7⟩ demoStream).2.2 =
      some (.illegalArgument (-2)) ∧
    Option.map Thrown.isInvalidState
      (resetImpl demoFailReset ⟨false, 7⟩ demoStream).2.2 ≠ some true := by
  decide

/-- C3 amended: when the engine rejects the reset, `Deflater_resetImpl` fails
with an InvalidArgument condition (`IllegalArgumentException`) carrying the
engine's status. -/
theorem reset_reject_invalid_argument (dr : ZStream → ZStream × Int)
    (recv : DeflaterObj) (stream : ZStream) (s1 : ZStream) (err : Int)
    (h : dr stream = (s1, err)) (hne : err ≠ zOK) :
    resetImpl dr recv stream = (s1, recv, some (.illegalArgument err)) := by
  simp [resetImpl, h, hne]

/-- Witness for the amended C3 at a concrete rejecting reset. -/
theorem reset_reject_invalid_argument_witness :
    resetImpl demoFailReset ⟨false, 7⟩ demoStream =
      (demoStream, ⟨false, 7⟩, some (.illegalArgument (-2))) :=
  reset_reject_invalid_argument demoFailReset ⟨false, 7⟩ demoStream demoStream
    (-2) rfl (by decide)

/-- C4: `Deflater_resetImpl` leaves the caller-visible object — in
particular its cumulative `inRead` counter — unchanged, whatever the engine's
reset does. -/
theorem reset_preserves_inRead (dr : ZStream → ZStream × Int)
    (recv : DeflaterObj) (stream : ZStream) :
    (resetImpl dr recv stream).2.1 = recv ∧
    (resetImpl dr recv stream).2.1.inRead = recv.inRead := by
  unfold resetImpl
  rcases dr stream with ⟨s1, err⟩
  by_cases h : err = zOK <;> simp [h]

/-- Applying `toJlong` to a valid (in-range, not all-ones) address is never -1. -/
theorem toJlong_ne_neg_one (a : Nat) (h : a + 1 < 2 ^ 64) : toJlong a ≠ -1 := by
  unfold toJlong
  have hm : a % 2 ^ 64 = a := Nat.mod_eq_of_lt (by omega)
  rw [hm]
  split <;> omega

/-- C5: `Deflater_createStream` returns sentinel -1 exactly when it fails:
allocation failure raises OutOfMemory and returns -1; an engine-rejected
configuration raises InvalidArgument (`IllegalArgumentException` carrying the
engine's status), releases the fresh context, and returns -1; success returns
a non-sentinel handle with nothing raised. -/
theorem create_sentinel_iff_failure (alloc : Option Nat) (init : InitFn)
    (level strategy : Int) (noHeader : Bool)
    (hvalid : ∀ a, alloc = some a → a + 1 < 2 ^ 64) :
    ((createStream alloc init level strategy noHeader).ret = -1 ↔
      (createStream alloc init level strategy noHeader).thrown ≠ none) ∧
    (alloc = none → createStream alloc init level strategy noHeader =
      ⟨some .outOfMemory, -1, false⟩) ∧
    (∀ a, alloc = some a →
      init level zDeflated (windowBitsFor noHeader) defMemLevel strategy ≠ zOK →
      createStream alloc init level strategy noHeader =
        ⟨some (.illegalArgument
          (init level zDeflated (windowBitsFor noHeader) defMemLevel strategy)),
          -1, true⟩) ∧
    (∀ a, alloc = some a →
      init level zDeflated (windowBitsFor noHeader) defMemLevel strategy = zOK →
      createStream alloc init level strategy noHeader =
        ⟨none, toJlong a, false⟩ ∧ toJlong a ≠ -1) := by
  rcases alloc with _ | a
  · refine ⟨by simp [createStream], fun _ => rfl, ?_, ?_⟩
    · intro a ha
      exact absurd ha (by simp)
    · intro a ha
      exact absurd ha (by simp)
  · have hne := toJlong_ne_neg_one a (hvalid a rfl)
    by_cases herr :
        init level zDeflated (windowBitsFor noHeader) defMemLevel strategy = zOK
    · refine ⟨?_, by simp, ?_, ?_⟩
      · simp [createStream, herr, hne]
      · intro b hb hrej
        exact absurd herr hrej
      · intro b hb _
        obtain rfl : a = b := by injection hb
        exact ⟨by simp [createStream, herr], hne⟩
    · refine ⟨?_, by simp, ?_, ?_⟩
      · simp [createStream, herr]
      · intro b hb _
        simp [createStream, herr]
      · intro b hb hok
        exact absurd hok herr

/-- Witness for C5: success, allocation failure, and engine rejection at
concrete inputs. -/
theorem create_sentinel_iff_failure_witness :
    ((createStream (some 4096) demoInitOK 6 0 false).ret ≠ -1 ∧
      (createStream (some 4096) demoInitOK 6 0 false).thrown = none) ∧
    createStream none demoInitOK 6 0 false = ⟨some .outOfMemory, -1, false⟩ ∧
    createStream (some 4096) demoInitFail 6 0 false =
      ⟨some (.illegalArgument (-2)), -1, true⟩ := by
  have hok := create_sentinel_iff_failure (some 4096) demoInitOK 6 0 false
    (by intro a ha; injection ha with h1; omega)
  have hoom := create_sentinel_iff_failure none demoInitOK 6 0 false
    (by intro a ha; cases ha)
  have hrej := create_sentinel_iff_failure (some 4096) demoInitFail 6 0 false
    (by intro a ha; injection ha with h1; omega)
  refine ⟨?_, hoom.2.1 rfl, hrej.2.2.1 4096 rfl (by decide)⟩
  have h := hok.2.2.2 4096 rfl (by decide)
  rw [h.1]
  exact ⟨h.2, rfl⟩

/-- C6: `Deflater_createStream` initializes the engine with exactly the
caller's level and strategy, method `Z_DEFLATED`, the default memory level,
and a window-bits parameter that is `DEF_WBITS` negated precisely when raw
(no-header) mode is requested: two engines agreeing at those arguments yield
identical results, and the window-bits values are -15 for raw mode and 15
otherwise with memory level 8. -/
theorem create_engine_init_args (alloc : Option Nat) (init other : InitFn)
    (level strategy : Int) (noHeader : Bool)
    (h : init level zDeflated (windowBitsFor noHeader) defMemLevel strategy =
      other level zDeflated (windowBitsFor noHeader) defMemLevel strategy) :
    createStream alloc init level strategy noHeader =
      createStream alloc other level strategy noHeader ∧
    windowBitsFor noHeader = (if noHeader then -defWBits else defWBits) ∧
    windowBitsFor true = -15 ∧ windowBitsFor false = 15 ∧ defMemLevel = 8 := by
  refine ⟨?_, rfl, by decide, by decide, rfl⟩
  cases alloc <;> simp [createStream, h]

/-- Witness for C6: an engine accepting only (method 8, windowBits -15,
memLevel 8) behaves like the always-accepting engine under raw mode. -/
theorem create_engine_init_args_witness :
    createStream (some 4096) demoInitOK 6 0 true =
      createStream (some 4096) demoInitProbe 6 0 true ∧
    windowBitsFor true = -15 ∧ windowBitsFor false = 15 :=
  have h := create_engine_init_args (some 4096) demoInitOK demoInitProbe 6 0
    true (by decide)
  ⟨h.1, h.2.2.1, h.2.2.2.1⟩

/-- C7: `Deflater_setLevelsImpl` clears the output binding to a null cursor
and zero remaining-output count before invoking the engine's parameter
change — the engine's behaviour at that cleared state alone determines the
result — and raises InvalidState (`IllegalStateException` carrying the
engine's status) exactly when the engine rejects the change. -/
theorem setLevels_clears_output_binding
    (dp other : ZStream → Int → Int → ZStream × Int)
    (level strategy : Int) (stream : ZStream) (s1 : ZStream) (err : Int)
    (hagree : dp { stream with next_out := 0, avail_out := 0 } level strategy =
      other { stream with next_out := 0, avail_out := 0 } level strategy)
    (h : dp { stream with next_out := 0, avail_out := 0 } level strategy =
      (s1, err)) :
    setLevelsImpl dp level strategy stream =
      setLevelsImpl other level strategy stream ∧
    (setLevelsImpl dp level strategy stream).1 = s1 ∧
    (err ≠ zOK → (setLevelsImpl dp level strategy stream).2 =
      some (.illegalState err)) ∧
    (err = zOK → (setLevelsImpl dp level strategy stream).2 = none) := by
  have h2 :
      other { stream with next_out := 0, avail_out := 0 } level strategy =
        (s1, err) :=
    hagree.symm.trans h
  refine ⟨?_, ?_, ?_, ?_⟩
  · simp [setLevelsImpl, h, h2]
  · by_cases he : err = zOK <;> simp [setLevelsImpl, h, he]
  · intro he
    simp [setLevelsImpl, h, he]
  · intro he
    simp [setLevelsImpl, h, he]

/-- Witness for C7: the always-accepting parameter change agrees with one
that accepts only a cleared output binding; a rejecting change raises the
InvalidState kind. -/
theorem setLevels_clears_output_binding_witness :
    setLevelsImpl demoParamsOK 9 1 demoStream =
      setLevelsImpl demoParamsProbe 9 1 demoStream ∧
    (setLevelsImpl demoParamsOK 9 1 demoStream).2 = none ∧
    (setLevelsImpl demoParamsFail 9 1 demoStream).2 =
      some (.illegalState (-2)) := by
  have hok := setLevels_clears_output_binding demoParamsOK demoParamsProbe 9 1
    demoStream ⟨1000, 11, 0, 0, 0, 0, 1⟩ zOK (by decide) (by decide)
  have hfail := setLevels_clears_output_binding demoParamsFail demoParamsFail
    9 1 demoStream ⟨1000, 11, 0, 0, 0, 0, 1⟩ (-2) rfl (by decide)
  exact ⟨hok.1, hok.2.2.2 rfl, hfail.2.2.1 (by decide)⟩

end Deflater

